import Mathlib

/-!
Shallow embedding of the interval-node SDK core: the IO component
(`src/component.ts`), the IO Client render loop (`src/classes/Layout.ts`,
`IOClient`), the transaction loading state
(`src/classes/TransactionLoadingState.ts`), and the host controller with its
reconnect backoff (`createIntervalHost` / `autoTry`).

JSON-compatible values are modelled by `Value`; the superjson value codec is
treated as the identity (it is declared out of scope by the specification).
Zod validators are modelled as possibly failing functions `Value → Option Value`
(`none` models a thrown `ZodError`).  JavaScript promise cells are modelled as
`Option Value` with settle-once semantics (`promiseResolve`): calling a
`resolve` of a promise a second time is a no-op of the JS runtime.
-/

/-- JSON-compatible values exchanged over the wire. -/
inductive Value where
  | null
  | bool (b : Bool)
  | num (n : Int)
  | str (s : String)
  | arr (xs : List Value)

mutual

/-- Structural equality of JSON values; `JSON.stringify(a) === JSON.stringify(b)`
coincides with it on canonical values. -/
def Value.beq : Value → Value → Bool
  | Value.null, Value.null => true
  | Value.bool a, Value.bool b => a == b
  | Value.num a, Value.num b => a == b
  | Value.str a, Value.str b => a == b
  | Value.arr xs, Value.arr ys => Value.beqList xs ys
  | _, _ => false

def Value.beqList : List Value → List Value → Bool
  | [], [] => true
  | x :: xs, y :: ys => Value.beq x y && Value.beqList xs ys
  | _, _ => false

end

/-- Schema triple for one component kind: `props`, `state` and `returns`
validators (`ioSchema[methodName]`).  `none` models a thrown `ZodError`. -/
structure ComponentSchema where
  propsParse : Value → Option Value
  stateParse : Value → Option Value
  returnsParse : Value → Option Value

/-- One IO component: the `instance` record plus the closure state of
`component()` in `src/component.ts` (`resolver`/`returnValue` modelled by the
settle-once cell `returnCell`).  The `validator` field is the per-return
validator the render loop reads at `component.validator`; the `IOComponent`
class holding it is not among the sampled sources, so it is
Modelled from the spec: section 4.4, `validate(fn)` attaches a post-return
validator returning an optional user-facing error message. -/
structure Component where
  methodName : String
  label : String
  props : Option Value
  state : Value
  schema : ComponentSchema
  handleStateChange : Option (Value → Value)
  returnCell : Option Value
  validator : Option (Value → Option String)

/-- Settle-once semantics of a JavaScript promise resolver: resolving an
already-settled promise is a no-op of the runtime. -/
def promiseResolve (cell : Option Value) (v : Value) : Option Value :=
  match cell with
  | none => some v
  | some w => some w

/-- Embeds the `component()` constructor of `src/component.ts`: `state` starts
`null`, the return promise is pending, and no per-return validator is
attached yet. -/
def mkComponent (methodName label : String) (initialProps : Option Value)
    (schema : ComponentSchema) (handleStateChange : Option (Value → Value)) :
    Component :=
  { methodName := methodName
    label := label
    props := initialProps
    state := Value.null
    schema := schema
    handleStateChange := handleStateChange
    returnCell := none
    validator := none }

/-- Embeds `setReturnValue` (`src/component.ts` lines 65-70): parse the value
against the returns schema (a parse failure throws), then call the resolver;
the promise itself keeps its first settled value. -/
def Component.setReturnValue (c : Component) (value : Value) :
    Except String Component :=
  match c.schema.returnsParse value with
  | none => Except.error "ZodError"
  | some parsed => Except.ok { c with returnCell := promiseResolve c.returnCell parsed }

/-- Embeds `setState` (`src/component.ts` lines 72-87): parse the incoming
state; if a state-change handler is registered, replace `props` with its
result.  Note that `instance.state` is never assigned.  The observer firing
is handled at the render-loop level, and the console warning for non-null
state without a handler is not tracked. -/
def Component.setState (c : Component) (newState : Value) :
    Except String Component :=
  match c.schema.stateParse newState with
  | none => Except.error "ZodError"
  | some parsed =>
    match c.handleStateChange with
    | some h => Except.ok { c with props := some (h parsed) }
    | none =>
      let _ := parsed
      Except.ok c

/-- Runs one `setReturnValue` call as a state transformer: a thrown parse
error propagates to the caller and leaves the component unchanged. -/
def applySetReturnValue (c : Component) (v : Value) : Component :=
  match c.setReturnValue v with
  | Except.ok c2 => c2
  | Except.error _ => c

/-- Runs one `setState` call as a state transformer: a thrown parse error
propagates to the caller and leaves the component unchanged. -/
def applySetState (c : Component) (v : Value) : Component :=
  match c.setState v with
  | Except.ok c2 => c2
  | Except.error _ => c

/-- Embeds `getRenderInfo` (`src/component.ts` lines 98-104). -/
structure RenderInfo where
  methodName : String
  label : String
  props : Option Value

def Component.getRenderInfo (c : Component) : RenderInfo :=
  { methodName := c.methodName, label := c.label, props := c.props }

/-- First-defined choice, the behaviour of resolving an already-settled
promise cell. -/
def firstSome (a b : Option Value) : Option Value :=
  match a with
  | some w => some w
  | none => b

/-- The `JSON.stringify(newState) !== JSON.stringify(prevState)` deduplication
comparison of the `SET_STATE` branch (`Layout.ts` line 283). -/
def stringifyNe (a b : Value) : Bool :=
  !(Value.beq a b)

/-- Outbound render envelope (`T_IO_RENDER_INPUT`, `Layout.ts` lines 188-205):
`id` is a fresh UUID modelled by a counter, `kind` is always `RENDER`.
The superjson `{json, meta}` split of each props entry is treated as the
identity codec. -/
structure RenderPacket where
  id : Nat
  inputGroupKey : Nat
  toRender : List RenderInfo
  validationErrorMessage : Option String

/-- Response kinds of `T_IO_RESPONSE`. -/
inductive ResponseKind where
  | RETURN
  | SET_STATE
  | CANCELED
deriving DecidableEq, Repr

/-- Inbound response packet: `inputGroupKey` is optional on the wire, and
`values` is taken after the optional superjson `valuesMeta` deserialization
(identity codec). -/
structure IOResponse where
  inputGroupKey : Option Nat
  kind : ResponseKind
  values : List Value

/-- Error kinds thrown by the IO Client (`IOError`). -/
inductive IOErrorKind where
  | CANCELED
  | TRANSACTION_CLOSED
deriving DecidableEq, Repr

/-- Settled status of the outer render promise of one `renderComponents`
call: rejected through `reject`, or resolved with the component returns. -/
inductive SettledOutcome where
  | rejected (k : IOErrorKind)
  | resolved
deriving DecidableEq, Repr

/-- State of one active `renderComponents` render loop (`Layout.ts` lines
169-308) together with the client-level `isCanceled` flag it closes over.
`sentRenders` logs the outbound envelopes produced by `render()`, `nextId`
supplies fresh packet ids, and `outcome` is the settled status of the outer
promise (`none` while pending). -/
structure RenderLoopState where
  inputGroupKey : Nat
  isCanceled : Bool
  isReturned : Bool
  validationErrorMessage : Option String
  components : List Component
  groupValidator : Option (List Value → Option String)
  sentRenders : List RenderPacket
  nextId : Nat
  outcome : Option SettledOutcome

/-- Embeds `render()` (`Layout.ts` lines 187-208): serialize the `getRenderInfo()` of every component and emit one envelope carrying the `inputGroupKey` of the loop
and the current `validationErrorMessage`. -/
def doRender (s : RenderLoopState) : RenderLoopState :=
  { s with
    sentRenders := s.sentRenders ++
      [{ id := s.nextId
         inputGroupKey := s.inputGroupKey
         toRender := s.components.map Component.getRenderInfo
         validationErrorMessage := s.validationErrorMessage }]
    nextId := s.nextId + 1 }

/-- Settle-once rejection of the outer promise. -/
def rejectOuter (k : IOErrorKind) (s : RenderLoopState) : RenderLoopState :=
  match s.outcome with
  | none => { s with outcome := some (SettledOutcome.rejected k) }
  | some _ => s

/-- The stale-batch guard (`Layout.ts` lines 211-214): a response whose
`inputGroupKey` is present (truthy) and differs from the key of the loop. -/
def isStale (s : RenderLoopState) (r : IOResponse) : Bool :=
  match r.inputGroupKey with
  | some k => k != s.inputGroupKey
  | none => false

/-- `handleValidation` of the IO component, Modelled from the spec: section
4.4, it runs the attached post-return validator on the raw return value and
yields the optional user-facing error message.  The `IOComponent` class that
hosts it is not among the sampled sources. -/
def handleValidation (c : Component) (v : Value) : Option String :=
  match c.validator with
  | some f => f v
  | none => none

/-- One entry of the `validities` array (`Layout.ts` lines 240-251): a value
is valid when the component has no validator or `handleValidation` returned
`undefined`. -/
def returnValidity (c : Component) (v : Value) : Bool :=
  match c.validator with
  | some _ => (handleValidation c v).isNone
  | none => true

/-- JavaScript truthiness of the group validator message
(`if (validationErrorMessage)`, `Layout.ts` line 263): an empty string is
falsy. -/
def truthyStr : Option String → Bool
  | some m => m != ""
  | none => false

/-- Embeds `result.values.forEach((v, index) => components[index].setReturnValue(v))`
(`Layout.ts` lines 271-274): assign values in order; a thrown parse error
aborts the loop with the mutations so far kept. -/
def setReturnValuesAux : RenderLoopState → List Value → Nat →
    RenderLoopState × Option String
  | s, [], _ => (s, none)
  | s, v :: rest, i =>
    match s.components.get? i with
    | none => (s, none)
    | some c =>
      match c.setReturnValue v with
      | Except.error e => (s, some e)
      | Except.ok c2 =>
        setReturnValuesAux { s with components := s.components.set i c2 } rest (i + 1)

/-- The tail of the `RETURN` branch once validation passed (`Layout.ts` lines
269-276): mark the batch returned, then assign each raw value to its
component. -/
def finishReturn (s : RenderLoopState) (values : List Value) :
    RenderLoopState × Option String :=
  setReturnValuesAux { s with isReturned := true } values 0

/-- Embeds the `RETURN` branch (`Layout.ts` lines 239-277): run every
per-return validator of every component; when any fails, call `render()` again —
note that `validationErrorMessage` is not assigned on this path.  Otherwise
run the group validator, storing its message in `validationErrorMessage`,
and re-render when the message is truthy; otherwise finish the batch. -/
def handleReturn (s : RenderLoopState) (values : List Value) :
    RenderLoopState × Option String :=
  let validities := (values.zip s.components).map fun vc => returnValidity vc.2 vc.1
  if validities.any (fun b => !b) then (doRender s, none)
  else
    match s.groupValidator with
    | some g =>
      let vem := g values
      let s2 := { s with validationErrorMessage := vem }
      if truthyStr vem then (doRender s2, none)
      else finishReturn s2 values
    | none => finishReturn s values

/-- Embeds the `SET_STATE` branch (`Layout.ts` lines 279-290): for each index
whose new state differs (by `JSON.stringify`) from the instance state, call
`setState` — whose observer is `render`, so each accepted update emits an
envelope — then call `render()` once more after the loop.  A thrown parse
error aborts the handler, keeping the mutations made so far. -/
def handleSetState : RenderLoopState → List Value → Nat →
    RenderLoopState × Option String
  | s, [], _ => (doRender s, none)
  | s, v :: rest, i =>
    match s.components.get? i with
    | none => handleSetState s rest (i + 1)
    | some c =>
      if stringifyNe v c.state then
        match c.setState v with
        | Except.error e => (s, some e)
        | Except.ok c2 =>
          handleSetState (doRender { s with components := s.components.set i c2 })
            rest (i + 1)
      else handleSetState s rest (i + 1)

/-- Embeds `onResponseHandler` (`Layout.ts` lines 210-291) as a step function.
The handler is an `async` arrow, so a thrown error (the length-mismatch
`Error`) rejects the promise of the handler itself instead of throwing synchronously;
that escaping error is the second result component. -/
def onResponseHandler (s : RenderLoopState) (r : IOResponse) :
    RenderLoopState × Option String :=
  if isStale s r then (s, none)
  else if s.isCanceled || s.isReturned then (s, none)
  else if r.kind = ResponseKind.CANCELED then
    (rejectOuter IOErrorKind.CANCELED { s with isCanceled := true }, none)
  else if r.values.length ≠ s.components.length then
    (s, some "Mismatch in return array length")
  else if r.kind = ResponseKind.RETURN then
    handleReturn s r.values
  else if r.kind = ResponseKind.SET_STATE then
    handleSetState s r.values 0
  else (s, none)

/-- Embeds `IOClient.onResponse` (`Layout.ts` lines 490-498).  The installed
handler is `async`, so its `try`/`catch` never intercepts an error thrown
inside the handler: the error surfaces as an unhandled promise rejection,
returned here as the second component. -/
def clientOnResponse (installed : Bool) (s : RenderLoopState) (r : IOResponse) :
    RenderLoopState × Option String :=
  if installed then onResponseHandler s r else (s, none)

/-- The fresh loop state built by the `renderComponents` promise executor
(`Layout.ts` lines 180-299) before the initial `render()`:
`validationErrorMessage` is cleared, a fresh `inputGroupKey` is drawn, and no
envelope has been sent yet. -/
def initialLoopState (comps : List Component)
    (gv : Option (List Value → Option String)) (key : Nat) : RenderLoopState :=
  { inputGroupKey := key
    isCanceled := false
    isReturned := false
    validationErrorMessage := none
    components := comps
    groupValidator := gv
    sentRenders := []
    nextId := 0
    outcome := none }

/-- Embeds the entry of `renderComponents` (`Layout.ts` lines 169-186 and the
initial `render()` call, line 299): when the client is already canceled it
throws `IOError` of kind `TRANSACTION_CLOSED` before creating any state or sending
anything; otherwise the loop starts with its initial envelope sent. -/
def renderComponentsStart (isCanceled : Bool) (comps : List Component)
    (gv : Option (List Value → Option String)) (key : Nat) :
    Except IOErrorKind RenderLoopState :=
  if isCanceled then Except.error IOErrorKind.TRANSACTION_CLOSED
  else Except.ok (doRender (initialLoopState comps gv key))

/-- Loading state payload (`LoadingState` of `internalRpcSchema`), Modelled
from the spec: section 3, `{ title?, description?, itemsInQueue?,
itemsCompleted? }`; the schema module is not among the sampled sources. -/
structure LoadingSt where
  title : Option String := none
  description : Option String := none
  itemsInQueue : Option Nat := none
  itemsCompleted : Option Nat := none
deriving DecidableEq, Repr

/-- Options accepted by `start`/`update` (`LoadingOptions`), Modelled from the
spec: sections 3 and 4.7 — callers may set title, description and
`itemsInQueue`, while `itemsCompleted` is only ever advanced through
`completeOne`; the schema module is not among the sampled sources. -/
structure LoadingOptions where
  title : Option String := none
  description : Option String := none
  itemsInQueue : Option Nat := none
deriving DecidableEq, Repr

/-- JavaScript truthiness of an optional number: `undefined` and `0` are
falsy. -/
def truthyNat : Option Nat → Bool
  | some n => n != 0
  | none => false

/-- The `string | LoadingOptions | undefined` normalization shared by `start`
and `update` (`TransactionLoadingState.ts` lines 33-37 and 53-57). -/
inductive LoadingArg where
  | str (s : String)
  | opts (o : LoadingOptions)
  | undef
deriving DecidableEq, Repr

def normalizeLoadingArg : LoadingArg → LoadingOptions
  | LoadingArg.str s => { title := some s }
  | LoadingArg.opts o => o
  | LoadingArg.undef => {}

/-- `Object.assign(this.#state, options)`: fields present in the options
overwrite those of the state, absent fields are kept. -/
def mergeOptions (st : LoadingSt) (o : LoadingOptions) : LoadingSt :=
  { st with
    title := match o.title with | some t => some t | none => st.title
    description := match o.description with | some d => some d | none => st.description
    itemsInQueue := match o.itemsInQueue with | some q => some q | none => st.itemsInQueue }

/-- Embeds `TransactionLoadingState.start` (lines 32-45): replace the whole
state with the options, set `itemsCompleted` to 0 when the new
`itemsInQueue` is truthy, then transmit the new state.  The previous state is
discarded. -/
def tlsStart (o : LoadingOptions) (_s : Option LoadingSt) :
    Option LoadingSt × List LoadingSt :=
  let st : LoadingSt :=
    { title := o.title, description := o.description,
      itemsInQueue := o.itemsInQueue, itemsCompleted := none }
  let st2 := if truthyNat st.itemsInQueue then { st with itemsCompleted := some 0 } else st
  (some st2, [st2])

/-- Embeds `TransactionLoadingState.update` (lines 47-66): without a prior
`start` it warns and redirects to `start`; otherwise it merges the options,
sets `itemsCompleted` to 0 when `itemsInQueue` is truthy and
`itemsCompleted` is still undefined, then transmits. -/
def tlsUpdate (o : LoadingOptions) (s : Option LoadingSt) :
    Option LoadingSt × List LoadingSt :=
  match s with
  | none => tlsStart o none
  | some st =>
    let st2 := mergeOptions st o
    let st3 :=
      if truthyNat st2.itemsInQueue && st2.itemsCompleted.isNone
      then { st2 with itemsCompleted := some 0 } else st2
    (some st3, [st3])

/-- Embeds `TransactionLoadingState.completeOne` (lines 68-82): without a
state or with a falsy `itemsInQueue` it warns and returns without sending;
otherwise it sets `itemsCompleted` to 0 when undefined, increments it,
and transmits. -/
def tlsCompleteOne (s : Option LoadingSt) : Option LoadingSt × List LoadingSt :=
  match s with
  | none => (none, [])
  | some st =>
    if truthyNat st.itemsInQueue then
      let st2 := if st.itemsCompleted.isNone then { st with itemsCompleted := some 0 } else st
      let st3 := { st2 with itemsCompleted := st2.itemsCompleted.map (· + 1) }
      (some st3, [st3])
    else (some st, [])

/-- One operation on a `TransactionLoadingState`. -/
inductive TLSOp where
  | start (a : LoadingArg)
  | update (a : LoadingArg)
  | completeOne
deriving Repr

def tlsStep (s : Option LoadingSt × List LoadingSt) (op : TLSOp) :
    Option LoadingSt × List LoadingSt :=
  let r := match op with
    | TLSOp.start a => tlsStart (normalizeLoadingArg a) s.1
    | TLSOp.update a => tlsUpdate (normalizeLoadingArg a) s.1
    | TLSOp.completeOne => tlsCompleteOne s.1
  (r.1, s.2 ++ r.2)

/-- Runs a sequence of loading-state operations from the initial (undefined)
state, collecting the transmitted payloads. -/
def runTLS (ops : List TLSOp) : Option LoadingSt × List LoadingSt :=
  ops.foldl tlsStep (none, [])

/-- Numeric view of `itemsCompleted` (0 when the state or the field is
undefined), used to state monotonicity. -/
def cval (s : Option LoadingSt) : Nat :=
  match s with
  | some st => st.itemsCompleted.getD 0
  | none => 0

/-- Predicate: whenever `itemsInQueue` is truthy, `itemsCompleted` is
defined. -/
def goodTLS (s : Option LoadingSt) : Prop :=
  ∀ st, s = some st → truthyNat st.itemsInQueue = true → st.itemsCompleted.isSome = true

/-- Outbound RPC calls emitted by the host controller that matter to the
transaction lifecycle. -/
inductive HostRpcCall where
  | SEND_IO_CALL (transactionId : String) (ioCall : String)
  | MARK_TRANSACTION_COMPLETE (transactionId : String)
deriving DecidableEq, Repr

/-- Host controller state: the `inProgressTransactions` map (txId to the
reply handler, modelled by an abstract numeric token), the actions invoked so far, and
the RPC calls sent upstream. -/
structure HostState where
  inProgressTransactions : List (String × Nat)
  invoked : List (String × String)
  sentCalls : List HostRpcCall
deriving DecidableEq, Repr

/-- `Map.set`: replace the binding for the key or append a new one. -/
def mapSet (m : List (String × Nat)) (k : String) (v : Nat) : List (String × Nat) :=
  match m with
  | [] => [(k, v)]
  | (k2, v2) :: rest => if k2 = k then (k, v) :: rest else (k2, v2) :: mapSet rest k v

/-- `Map.get`: the binding for the key, if any. -/
def mapGet (m : List (String × Nat)) (k : String) : Option Nat :=
  match m with
  | [] => none
  | (k2, v2) :: rest => if k2 = k then some v2 else mapGet rest k

/-- Embeds the `START_TRANSACTION` handler (`src/unnamed/part_000` lines
141-173): look up the action; when absent, do nothing; otherwise register the
reply handler under the transaction id and invoke the action.  The `then` continuation of the action is `actionResolved`. -/
def startTransaction (actions : List String) (transactionId actionName : String)
    (replyHandler : Nat) (h : HostState) : HostState :=
  if actionName ∈ actions then
    { h with
      inProgressTransactions := mapSet h.inProgressTransactions transactionId replyHandler
      invoked := h.invoked ++ [(transactionId, actionName)] }
  else h

/-- Embeds the `then` continuation of the action (`src/unnamed/part_000`
lines 166-170): emit `MARK_TRANSACTION_COMPLETE` for the transaction.  No
code removes the `inProgressTransactions` entry. -/
def actionResolved (transactionId : String) (h : HostState) : HostState :=
  { h with sentCalls := h.sentCalls ++ [HostRpcCall.MARK_TRANSACTION_COMPLETE transactionId] }

/-- Embeds the tail of `setup()` (`src/unnamed/part_000` lines 188-196): the
`INITIALIZE_HOST` call either rejects (`Except.error`), returns a falsy
response (`Except.ok none`), or returns the dashboard info.  A falsy response
throws an `Error` carrying the invalid-key message. -/
def setupHandshake (rpc : Except String (Option String)) : Except String Unit :=
  match rpc with
  | Except.error e => Except.error e
  | Except.ok none => Except.error "The provided API key is not valid"
  | Except.ok (some _) => Except.ok ()

/-- Embeds `createIntervalHost` (`src/unnamed/part_000` lines 101-202): it
invokes `setup()` without awaiting it and returns `true`.  A rejection of the
`setup()` promise therefore never reaches the caller; it is returned here as
the unhandled-rejection component. -/
def createIntervalHost (rpc : Except String (Option String)) : Bool × Option String :=
  (true,
    match setupHandshake rpc with
    | Except.error e => some e
    | Except.ok _ => none)

/-- The step delays of the reconnect backoff (`autoTry`, `src/unnamed/part_000`
line 46), in milliseconds. -/
def autoTrySteps : List Nat := [1000, 3000, 10000]

/-- Scheduler counters of `autoTry`: tries taken at the current step and the
index of the current step. -/
structure AutoTryState where
  triesAtStep : Nat
  pos : Nat
deriving DecidableEq, Repr

/-- Counter update after one fired attempt (`src/unnamed/part_000` lines
58-63): after more than 5 tries at a step, reset the counter and advance to
the next step, wrapping after the last. -/
def autoTryAdvance (s : AutoTryState) : AutoTryState :=
  let t := s.triesAtStep + 1
  if t > 5 then
    { triesAtStep := 0, pos := if s.pos ≥ 2 then 0 else s.pos + 1 }
  else { s with triesAtStep := t }

/-- The delays of the first `n` attempts scheduled by `autoTry` from the
given counters: each `tick` arms a timeout of `steps[pos]` milliseconds. -/
def autoTryDelays : Nat → AutoTryState → List Nat
  | 0, _ => []
  | Nat.succ n, s => autoTrySteps.getD s.pos 0 :: autoTryDelays n (autoTryAdvance s)

/-- The `cancel` handle returned by `autoTry` (`src/unnamed/part_000` lines
71-75): it clears the pending timeout, whatever it is. -/
def autoTryCancel (_pending : Option Nat) : Option Nat := none

/-- Identity zod parser, used for concrete witnesses. -/
def idParse : Value → Option Value := fun v => some v

def idSchema : ComponentSchema :=
  { propsParse := idParse, stateParse := idParse, returnsParse := idParse }

/-- Concrete `INPUT_TEXT` component used by witnesses. -/
def textComponent : Component := mkComponent "INPUT_TEXT" "name" none idSchema none

/-- Concrete per-return validator: rejects strings shorter than two
characters with the message "too short". -/
def lengthValidator : Value → Option String := fun v =>
  match v with
  | Value.str s => if s.length < 2 then some "too short" else none
  | _ => some "too short"

/-- The text component with `lengthValidator` attached via
`IOPromise.validate`. -/
def validatedComponent : Component :=
  { textComponent with validator := some lengthValidator }

/-- Concrete loop state: one validated component, no group validator, key 7,
after the initial render. -/
def oneComponentLoop : RenderLoopState :=
  doRender (initialLoopState [validatedComponent] none 7)

/-- Concrete loop state: one plain component, no group validator, key 7,
after the initial render. -/
def plainLoop : RenderLoopState :=
  doRender (initialLoopState [textComponent] none 7)

/-- Concrete stale response: key 99 against a loop keyed 7. -/
def staleResponse : IOResponse :=
  { inputGroupKey := some 99, kind := ResponseKind.RETURN, values := [Value.null] }

/-- Concrete cancellation response for the loop keyed 7. -/
def cancelResponse : IOResponse :=
  { inputGroupKey := some 7, kind := ResponseKind.CANCELED, values := [] }

/-- Concrete length-mismatched response: zero values for a one-component
batch. -/
def mismatchResponse : IOResponse :=
  { inputGroupKey := some 7, kind := ResponseKind.RETURN, values := [] }

/-- Concrete RETURN response carrying an empty string, which
`lengthValidator` rejects. -/
def shortReturn : IOResponse :=
  { inputGroupKey := some 7, kind := ResponseKind.RETURN, values := [Value.str ""] }

/-- Concrete sequence of two `setReturnValue` calls. -/
def c3Calls : List Value := [Value.str "first", Value.str "second"]

/-- Host state after a `START_TRANSACTION` for a known action and the
resolution of that action. -/
def c8HostAfter : HostState :=
  actionResolved "t1"
    (startTransaction ["refund"] "t1" "refund" 0
      { inProgressTransactions := [], invoked := [], sentCalls := [] })

theorem applySetReturnValue_schema (c : Component) (v : Value) :
    (applySetReturnValue c v).schema = c.schema := by
  simp only [applySetReturnValue, Component.setReturnValue]
  cases c.schema.returnsParse v <;> rfl

theorem applySetReturnValue_returnCell (c : Component) (v : Value) :
    (applySetReturnValue c v).returnCell =
      firstSome c.returnCell (c.schema.returnsParse v) := by
  simp only [applySetReturnValue, Component.setReturnValue]
  cases c.schema.returnsParse v with
  | none => cases c.returnCell <;> rfl
  | some p => cases c.returnCell <;> rfl

theorem foldl_setReturnValue_cell (vs : List Value) (c : Component) :
    (vs.foldl applySetReturnValue c).returnCell =
      firstSome c.returnCell (vs.filterMap c.schema.returnsParse).head? := by
  induction vs generalizing c with
  | nil =>
    simp only [List.foldl_nil, List.filterMap_nil, List.head?_nil]
    cases c.returnCell <;> rfl
  | cons v rest ih =>
    simp only [List.foldl_cons, List.filterMap_cons]
    rw [ih, applySetReturnValue_returnCell, applySetReturnValue_schema]
    cases c.returnCell with
    | some w => rfl
    | none => cases c.schema.returnsParse v <;> rfl

/-- C3: for every component and every sequence of `setReturnValue` calls, the
return promise resolves at most once: from a pending cell it ends at the
first successfully validated value, and an already-settled cell is never
overwritten, however many further calls are made. -/
theorem c3_single_resolve (c : Component) (vs : List Value) :
    (c.returnCell = none →
      (vs.foldl applySetReturnValue c).returnCell =
        (vs.filterMap c.schema.returnsParse).head?) ∧
    (∀ w, c.returnCell = some w →
      (vs.foldl applySetReturnValue c).returnCell = some w) := by
  constructor
  · intro h
    rw [foldl_setReturnValue_cell, h]
    rfl
  · intro w h
    rw [foldl_setReturnValue_cell, h]
    rfl

/-- Witness for C3 at a concrete component and two calls: the cell starts
pending and ends holding the first value. -/
theorem c3_single_resolve_witness :
    textComponent.returnCell = none ∧
    (c3Calls.foldl applySetReturnValue textComponent).returnCell =
      some (Value.str "first") := by
  refine ⟨rfl, ?_⟩
  have h := (c3_single_resolve textComponent c3Calls).1 rfl
  rw [h]
  rfl

theorem applySetState_state (c : Component) (v : Value) :
    (applySetState c v).state = c.state := by
  simp only [applySetState, Component.setState]
  cases c.schema.stateParse v with
  | none => rfl
  | some p => cases c.handleStateChange <;> rfl

theorem foldl_setState_state (vs : List Value) (c : Component) :
    (vs.foldl applySetState c).state = c.state := by
  induction vs generalizing c with
  | nil => rfl
  | cons v rest ih =>
    simp only [List.foldl_cons]
    rw [ih, applySetState_state]

/-- C10: `setState` never writes the `state` field of the component
instance — after any sequence of `setState` calls the instance state is
still `null`, its construction value, so the `SET_STATE` deduplication
comparison of the IO Client always compares the incoming state against
`null`. -/
theorem c10_state_never_written (mn lbl : String) (props : Option Value)
    (sch : ComponentSchema) (hsc : Option (Value → Value)) (vs : List Value) :
    (vs.foldl applySetState (mkComponent mn lbl props sch hsc)).state = Value.null ∧
    (∀ v : Value,
      stringifyNe v (vs.foldl applySetState (mkComponent mn lbl props sch hsc)).state
        = stringifyNe v Value.null) := by
  have h : (vs.foldl applySetState (mkComponent mn lbl props sch hsc)).state
      = Value.null := by
    rw [foldl_setState_state]
    rfl
  exact ⟨h, fun v => by rw [h]⟩

/-- C4: a response whose `inputGroupKey` differs from the key of the active
render loop is discarded: the loop state is unchanged (components, sends,
outcome), and no error escapes. -/
theorem c4_stale_dropped (s : RenderLoopState) (r : IOResponse) (k : Nat)
    (hk : r.inputGroupKey = some k) (hne : k ≠ s.inputGroupKey) :
    onResponseHandler s r = (s, none) := by
  have hs : isStale s r = true := by
    simp only [isStale, hk, bne_iff_ne, ne_eq]
    exact hne
  simp [onResponseHandler, hs]

/-- Witness for C4 at a concrete loop (key 7) and response (key 99). -/
theorem c4_stale_dropped_witness :
    onResponseHandler plainLoop staleResponse = (plainLoop, none) :=
  c4_stale_dropped plainLoop staleResponse 99 rfl (by decide)

/-- C2: processing one `CANCELED` response in an active (not canceled, not
returned, key-matched, pending) render loop sets `isCanceled`, rejects the
outer promise with `CANCELED` without sending anything, and every subsequent
`renderComponents` call on the client then rejects with `TRANSACTION_CLOSED`
before sending anything. -/
theorem c2_cancel_sticky (s : RenderLoopState) (r : IOResponse)
    (hstale : isStale s r = false) (hc : s.isCanceled = false)
    (hr : s.isReturned = false) (hk : r.kind = ResponseKind.CANCELED)
    (ho : s.outcome = none) :
    (onResponseHandler s r).1.isCanceled = true ∧
    (onResponseHandler s r).1.outcome =
      some (SettledOutcome.rejected IOErrorKind.CANCELED) ∧
    (onResponseHandler s r).1.sentRenders = s.sentRenders ∧
    (onResponseHandler s r).2 = none ∧
    (∀ comps gv key,
      renderComponentsStart (onResponseHandler s r).1.isCanceled comps gv key =
        Except.error IOErrorKind.TRANSACTION_CLOSED) := by
  have h1 : onResponseHandler s r =
      (rejectOuter IOErrorKind.CANCELED { s with isCanceled := true }, none) := by
    simp [onResponseHandler, hstale, hc, hr, hk]
  have h2 : rejectOuter IOErrorKind.CANCELED { s with isCanceled := true } =
      { s with isCanceled := true,
               outcome := some (SettledOutcome.rejected IOErrorKind.CANCELED) } := by
    simp [rejectOuter, ho]
  rw [h1, h2]
  refine ⟨rfl, rfl, rfl, rfl, ?_⟩
  intro comps gv key
  simp [renderComponentsStart]

/-- Witness for C2 at the concrete one-component loop and a `CANCELED`
response, with a subsequent render attempt rejected. -/
theorem c2_cancel_sticky_witness :
    (onResponseHandler plainLoop cancelResponse).1.isCanceled = true ∧
    (onResponseHandler plainLoop cancelResponse).1.outcome =
      some (SettledOutcome.rejected IOErrorKind.CANCELED) ∧
    renderComponentsStart (onResponseHandler plainLoop cancelResponse).1.isCanceled
      [textComponent] none 8 = Except.error IOErrorKind.TRANSACTION_CLOSED := by
  have h := c2_cancel_sticky plainLoop cancelResponse rfl rfl rfl rfl rfl
  exact ⟨h.1, h.2.1, h.2.2.2.2 [textComponent] none 8⟩

theorem zipGet {α β : Type} (xs : List α) (ys : List β) (i : Nat) (a : α) (b : β)
    (h1 : xs.get? i = some a) (h2 : ys.get? i = some b) :
    (xs.zip ys).get? i = some (a, b) := by
  induction xs generalizing ys i with
  | nil => simp at h1
  | cons x xt ih =>
    cases ys with
    | nil => simp at h2
    | cons y yt =>
      cases i with
      | zero =>
        simp only [List.get?_cons_zero, Option.some.injEq] at h1 h2
        simp [List.zip_cons_cons, h1, h2]
      | succ n =>
        simp only [List.get?_cons_succ] at h1 h2
        simpa [List.zip_cons_cons] using ih yt n h1 h2

/-- Counterexample to C1 as stated: with one component whose per-return
validator rejects the returned empty string with "too short", the loop
re-renders with the same `inputGroupKey` 7, but the next envelope carries
`validationErrorMessage = none`, not the message of the validator. -/
theorem c1_counterexample :
    lengthValidator (Value.str "") = some "too short" ∧
    ((onResponseHandler oneComponentLoop shortReturn).1.sentRenders.map
        (fun p => (p.inputGroupKey, p.validationErrorMessage)))
      = [(7, none), (7, none)] ∧
    (onResponseHandler oneComponentLoop shortReturn).2 = none :=
  ⟨rfl, rfl, rfl⟩

/-- C1 (amended): when a per-component validator rejects a value of a
key-matched `RETURN` response, the loop calls `render()` again: exactly one
new envelope is emitted, carrying the same `inputGroupKey` — but
`validationErrorMessage` is left unchanged rather than set to the message of
the validator (only a group validator message is ever stored there). -/
theorem c1_validation_rerender (s : RenderLoopState) (r : IOResponse)
    (hstale : isStale s r = false) (hc : s.isCanceled = false)
    (hr : s.isReturned = false) (hk : r.kind = ResponseKind.RETURN)
    (hlen : r.values.length = s.components.length)
    (i : Nat) (v : Value) (c : Component) (f : Value → Option String) (m : String)
    (hv : r.values.get? i = some v) (hcomp : s.components.get? i = some c)
    (hval : c.validator = some f) (hm : f v = some m) :
    onResponseHandler s r = (doRender s, none) ∧
    (doRender s).sentRenders = s.sentRenders ++
      [{ id := s.nextId, inputGroupKey := s.inputGroupKey,
         toRender := s.components.map Component.getRenderInfo,
         validationErrorMessage := s.validationErrorMessage }] ∧
    (doRender s).validationErrorMessage = s.validationErrorMessage := by
  have hmem : (v, c) ∈ r.values.zip s.components :=
    List.get?_mem (zipGet r.values s.components i v c hv hcomp)
  have hval1 : returnValidity c v = false := by
    simp [returnValidity, handleValidation, hval, hm]
  have hany : ((r.values.zip s.components).map
      (fun vc => returnValidity vc.2 vc.1)).any (fun b => !b) = true := by
    rw [List.any_eq_true]
    refine ⟨returnValidity c v,
      List.mem_map_of_mem (fun vc => returnValidity vc.2 vc.1) hmem, ?_⟩
    rw [hval1]
    rfl
  have hmain : onResponseHandler s r = handleReturn s r.values := by
    simp [onResponseHandler, hstale, hc, hr, hk, hlen]
  rw [hmain]
  refine ⟨?_, rfl, rfl⟩
  simp [handleReturn, hany]

/-- Witness for the amended C1 at the concrete one-component loop. -/
theorem c1_validation_rerender_witness :
    onResponseHandler oneComponentLoop shortReturn =
      (doRender oneComponentLoop, none) :=
  (c1_validation_rerender oneComponentLoop shortReturn rfl rfl rfl rfl (by decide)
    0 (Value.str "") validatedComponent lengthValidator "too short"
    rfl rfl rfl rfl).1

/-- Counterexample to C6 as stated: a key-matched `RETURN` response with zero
values against a one-component batch leaves the outer promise pending
(`outcome = none`) and the loop state untouched — the current render is not
rejected and the transaction does not end; the mismatch `Error` merely
escapes the async handler. -/
theorem c6_counterexample :
    (onResponseHandler plainLoop mismatchResponse).2 =
      some "Mismatch in return array length" ∧
    (onResponseHandler plainLoop mismatchResponse).1.outcome = none ∧
    (onResponseHandler plainLoop mismatchResponse).1.sentRenders.length = 1 ∧
    (onResponseHandler plainLoop mismatchResponse).1.isCanceled = false :=
  ⟨rfl, rfl, rfl, rfl⟩

/-- C6 (amended): a non-`CANCELED`, key-matched response whose values length
differs from the component count makes the handler throw
`Error("Mismatch in return array length")` before any mutation: no component
receives a state update or return value and no envelope is sent — but the
outer promise is not rejected and the transaction does not end, because the
error escapes the `async` handler as an unhandled rejection that the
`try`/`catch` in `onResponse` cannot intercept. -/
theorem c6_length_mismatch_unhandled (s : RenderLoopState) (r : IOResponse)
    (hstale : isStale s r = false) (hc : s.isCanceled = false)
    (hr : s.isReturned = false) (hk : r.kind ≠ ResponseKind.CANCELED)
    (hlen : r.values.length ≠ s.components.length) :
    clientOnResponse true s r = (s, some "Mismatch in return array length") := by
  simp [clientOnResponse, onResponseHandler, hstale, hc, hr, hk, hlen]

/-- Witness for the amended C6 at the concrete one-component loop. -/
theorem c6_length_mismatch_unhandled_witness :
    clientOnResponse true plainLoop mismatchResponse =
      (plainLoop, some "Mismatch in return array length") :=
  c6_length_mismatch_unhandled plainLoop mismatchResponse rfl rfl rfl
    (by decide) (by decide)

/-- C5: over 20 consecutive forced failures the reconnect backoff schedules
delays of 1s for attempts 1-6, 3s for attempts 7-12, 10s for attempts 13-18,
then wraps back to 1s for attempts 19-20, and the returned `cancel` handle
clears the pending timeout. -/
theorem c5_backoff_schedule :
    autoTryDelays 20 { triesAtStep := 0, pos := 0 } =
      (List.replicate 6 1000 ++ List.replicate 6 3000 ++
        List.replicate 6 10000 ++ List.replicate 2 1000) ∧
    (∀ pending : Option Nat, autoTryCancel pending = none) :=
  ⟨by decide, fun _ => rfl⟩

/-- Counterexample to C7 as stated: a second `start` resets `itemsCompleted`
from 1 back to 0 (a decrease), and `start` with `itemsInQueue = 0` leaves
`itemsCompleted` undefined instead of setting it to 0 (JavaScript
truthiness treats 0 as unset). -/
theorem c7_counterexample :
    cval (runTLS [TLSOp.start (LoadingArg.opts { itemsInQueue := some 1 }),
      TLSOp.completeOne]).1 = 1 ∧
    cval (runTLS [TLSOp.start (LoadingArg.opts { itemsInQueue := some 1 }),
      TLSOp.completeOne, TLSOp.start (LoadingArg.opts { itemsInQueue := some 1 })]).1 = 0 ∧
    (tlsStart { itemsInQueue := some 0 } none).1 =
      some { title := none, description := none,
             itemsInQueue := some 0, itemsCompleted := none } :=
  ⟨by decide, by decide, by decide⟩

/-- C7 (amended): `update` and `completeOne` never decrease `itemsCompleted`
(`start` establishes a fresh state, discarding prior progress); `completeOne`
with no prior `start` or with an unset-or-zero `itemsInQueue` is a no-op that
sends nothing; and whenever a resulting state has a truthy (nonzero)
`itemsInQueue`, its `itemsCompleted` is defined (set to 0 when it was
undefined). -/
theorem c7_loading_monotone (s : Option LoadingSt) (o : LoadingOptions) :
    cval s ≤ cval (tlsUpdate o s).1 ∧
    cval s ≤ cval (tlsCompleteOne s).1 ∧
    ((∀ st, s = some st → truthyNat st.itemsInQueue = false) →
      tlsCompleteOne s = (s, [])) ∧
    goodTLS (tlsStart o s).1 ∧
    goodTLS (tlsUpdate o s).1 ∧
    goodTLS (tlsCompleteOne s).1 := by
  have hstart : goodTLS (tlsStart o s).1 := by
    intro st hst htr
    simp only [tlsStart] at hst
    by_cases hb : truthyNat o.itemsInQueue = true
    · rw [if_pos hb] at hst
      cases hst
      rfl
    · rw [if_neg hb] at hst
      cases hst
      simp only at htr
      exact absurd htr hb
  cases s with
  | none =>
    refine ⟨Nat.zero_le _, Nat.zero_le _, fun _ => rfl, hstart, ?_, ?_⟩
    · intro st hst htr
      exact hstart st hst htr
    · intro st hst
      simp [tlsCompleteOne] at hst
  | some st =>
    refine ⟨?_, ?_, ?_, hstart, ?_, ?_⟩
    · show cval (some st) ≤ cval (tlsUpdate o (some st)).1
      simp only [tlsUpdate]
      cases hic : st.itemsCompleted with
      | none => simp [cval, hic, mergeOptions]
      | some n =>
        have h1 : (mergeOptions st o).itemsCompleted = some n := hic
        simp [cval, h1, hic]
    · show cval (some st) ≤ cval (tlsCompleteOne (some st)).1
      simp only [tlsCompleteOne]
      by_cases hb : truthyNat st.itemsInQueue = true
      · rw [if_pos hb]
        cases hic : st.itemsCompleted with
        | none => simp [cval, hic]
        | some n => simp [cval, hic, Nat.le_succ]
      · rw [if_neg hb]
    · intro hno
      have hb : truthyNat st.itemsInQueue = false := hno st rfl
      simp [tlsCompleteOne, hb]
    · intro st2 hst2 htr2
      simp only [tlsUpdate] at hst2
      by_cases hb : (truthyNat (mergeOptions st o).itemsInQueue &&
          (mergeOptions st o).itemsCompleted.isNone) = true
      · rw [if_pos hb] at hst2
        cases hst2
        rfl
      · rw [if_neg hb] at hst2
        cases hst2
        rw [Bool.and_eq_true] at hb
        push_neg at hb
        have hns := hb htr2
        cases hio : (mergeOptions st o).itemsCompleted with
        | none => exact absurd (by rw [hio]; rfl) hns
        | some n => rfl
    · intro st2 hst2 htr2
      simp only [tlsCompleteOne] at hst2
      by_cases hb : truthyNat st.itemsInQueue = true
      · rw [if_pos hb] at hst2
        cases hic : st.itemsCompleted with
        | none => rw [hic] at hst2; cases hst2; rfl
        | some n => rw [hic] at hst2; cases hst2; simp [hic]
      · rw [if_neg hb] at hst2
        cases hst2
        exact absurd htr2 hb

/-- Witness for the amended C7: monotonicity and the no-op of `completeOne`
at a concrete state with a zero `itemsInQueue`. -/
theorem c7_loading_monotone_witness :
    cval (some { itemsInQueue := some 0, itemsCompleted := some 3 }) ≤
      cval (tlsUpdate {}
        (some { itemsInQueue := some 0, itemsCompleted := some 3 })).1 ∧
    tlsCompleteOne (some { itemsInQueue := some 0, itemsCompleted := some 3 }) =
      (some { itemsInQueue := some 0, itemsCompleted := some 3 }, []) := by
  have h := c7_loading_monotone
    (some { itemsInQueue := some 0, itemsCompleted := some 3 }) {}
  exact ⟨h.1, h.2.2.1 (fun st hst => by cases hst; rfl)⟩

theorem mapGet_mapSet (m : List (String × Nat)) (k : String) (v : Nat) :
    mapGet (mapSet m k v) k = some v := by
  induction m with
  | nil => simp [mapSet, mapGet]
  | cons p rest ih =>
    obtain ⟨k2, v2⟩ := p
    by_cases h : k2 = k
    · simp [mapSet, mapGet, h]
    · simp [mapSet, mapGet, h, ih]

/-- Counterexample to C8 as stated: after `START_TRANSACTION` for a known
action and the resolution of that action, `MARK_TRANSACTION_COMPLETE` was
emitted, but the transaction-table entry for `t1` is still present — no code
removes it, so the transaction is not destroyed after completion. -/
theorem c8_counterexample :
    c8HostAfter.sentCalls = [HostRpcCall.MARK_TRANSACTION_COMPLETE "t1"] ∧
    mapGet c8HostAfter.inProgressTransactions "t1" = some 0 := by
  constructor
  · rfl
  · rfl

/-- C8 (amended): for every `START_TRANSACTION` with a known action name, the
host registers the reply handler under the transaction id and invokes the
action, and when the action resolves it emits `MARK_TRANSACTION_COMPLETE`
for that transaction — but the transaction-table entry is never removed. -/
theorem c8_transaction_lifecycle (actions : List String)
    (txId actionName : String) (rh : Nat) (h : HostState)
    (hmem : actionName ∈ actions) (h2 : HostState) :
    mapGet (startTransaction actions txId actionName rh h).inProgressTransactions
      txId = some rh ∧
    (startTransaction actions txId actionName rh h).invoked =
      h.invoked ++ [(txId, actionName)] ∧
    (actionResolved txId h2).sentCalls =
      h2.sentCalls ++ [HostRpcCall.MARK_TRANSACTION_COMPLETE txId] ∧
    (actionResolved txId h2).inProgressTransactions =
      h2.inProgressTransactions := by
    refine ⟨?_, ?_, rfl, rfl⟩
    · simp [startTransaction, hmem, mapGet_mapSet]
    · simp [startTransaction, hmem]

/-- Witness for the amended C8 at a concrete host state. -/
theorem c8_transaction_lifecycle_witness :
    mapGet ((startTransaction ["refund"] "t1" "refund" 0
      { inProgressTransactions := [], invoked := [],
        sentCalls := [] }).inProgressTransactions) "t1" = some 0 ∧
    (actionResolved "t1"
      { inProgressTransactions := [("t1", 0)], invoked := [("t1", "refund")],
        sentCalls := [] }).sentCalls =
      [] ++ [HostRpcCall.MARK_TRANSACTION_COMPLETE "t1"] := by
  have h := c8_transaction_lifecycle ["refund"] "t1" "refund" 0
    { inProgressTransactions := [], invoked := [], sentCalls := [] }
    (by decide)
    { inProgressTransactions := [("t1", 0)], invoked := [("t1", "refund")],
      sentCalls := [] }
  exact ⟨h.1, h.2.2.1⟩

/-- Counterexample to C9 as stated: with a falsy `INITIALIZE_HOST` response,
`createIntervalHost` still returns `true` to its caller; the `AUTH_INVALID`
error does not propagate, it only becomes an unhandled rejection of the
floating `setup()` promise. -/
theorem c9_counterexample :
    createIntervalHost (Except.ok none) =
      (true, some "The provided API key is not valid") := rfl

/-- C9 (amended): on a falsy or rejecting `INITIALIZE_HOST` response,
`setup()` throws, but `createIntervalHost` does not await `setup()`: it
returns `true` to its caller regardless, and the failure surfaces only as an
unhandled promise rejection. -/
theorem c9_handshake_failure (rpc : Except String (Option String)) :
    (createIntervalHost rpc).1 = true ∧
    ((rpc = Except.ok none ∨ (∃ e, rpc = Except.error e)) →
      (createIntervalHost rpc).2.isSome = true) ∧
    (createIntervalHost (Except.ok none)).2 =
      some "The provided API key is not valid" := by
  refine ⟨rfl, ?_, rfl⟩
  intro hr
  rcases hr with hr | ⟨e, hr⟩ <;> subst hr <;> rfl

/-- Witness for the amended C9 at the falsy handshake response. -/
theorem c9_handshake_failure_witness :
    (createIntervalHost (Except.ok none)).1 = true ∧
    (createIntervalHost (Except.ok none)).2.isSome = true := by
  have h := c9_handshake_failure (Except.ok none)
  exact ⟨h.1, h.2.1 (Or.inl rfl)⟩
